import Mathlib

/-!
# Verification of the `kpop` chain wrapper (`src/kpop/core.py`)

A shallow embedding of the `Bubble` chain wrapper. Python's dynamically typed
values are modelled by an abstract type `V` carrying a distinguished element
`pyNone` (Python's `None`), exceptions by an abstract type `E`, and the three
native operations (attribute read, indexed read, invocation) by an explicit
`PyOps` structure of total functions into `Except E V` — a raising native
operation is an `Except.error`, a succeeding one an `Except.ok`.

The `Bubble` structure mirrors the source slot-for-slot:
`_value`, `_default`, `_error`, `_history`, `_error_history`.
The `Operation` structure mirrors the namedtuple
`Operation = namedtuple('Operation', ['op', 'detail', 'result', 'exception'])`;
its `result` slot has type `V` (Python `Any`), because the source stores the
raw produced value there on success and the object `None` on failure, so the
slot itself cannot distinguish "absent" from "the value None".
-/

/-- The `detail` slot of an operation record: an attribute name for
`getattr`, a key for `getitem`, or the verbatim positional and named
arguments (the dict with keys `args`/`kwargs` in the source) for `call`. -/
inductive Detail (V : Type) where
  | attrName (a : String)
  | key (k : V)
  | callArgs (args : List V) (kwargs : List (String × V))
deriving DecidableEq

/-- The namedtuple `Operation(op, detail, result, exception)` from the source.
`result : V` because in the source the slot holds the raw produced value on
success and the Python object `None` otherwise; `exception : Option E` because
the slot holds either an `Exception` instance or `None`. -/
structure Operation (V E : Type) where
  op : String
  detail : Detail V
  result : V
  exception : Option E
deriving DecidableEq

/-- The chain wrapper `Bubble`, slots `_value`, `_default`, `_error`,
`_history`, `_error_history` of the source class. -/
structure Bubble (V E : Type) where
  value : V
  default : V
  error : Option E
  history : List (Operation V E)
  errorHistory : List (Operation V E)
deriving DecidableEq

/-- The ambient Python semantics the wrapper delegates to: the distinguished
object `None`, the three native operations (each either produces a value or
raises), and the textual renderings used by `__repr__` (`repr` of a value,
`str` of an exception). -/
structure PyOps (V E : Type) where
  pyNone : V
  getattrN : V → String → Except E V
  getitemN : V → V → Except E V
  callN : V → List V → List (String × V) → Except E V
  vRepr : V → String
  eStr : E → String

variable {V E : Type}

/-- `Bubble.__init__(value, default)`: no error, both histories empty. -/
def Bubble.init (value : V) (default : V) : Bubble V E :=
  ⟨value, default, none, [], []⟩

/-- `Bubble._record(op, detail, result, exception)`: returns the pair
`(new_history, new_error_history)`; always appends to the history, and
appends to the error history only when no error has occurred yet. -/
def Bubble.record (b : Bubble V E) (op : String) (detail : Detail V)
    (result : V) (exception : Option E) :
    List (Operation V E) × List (Operation V E) :=
  let r : Operation V E := ⟨op, detail, result, exception⟩
  (b.history ++ [r],
   if b.error.isSome then b.errorHistory else b.errorHistory ++ [r])

/-- `Bubble.__getattr__(attr)`. -/
def Bubble.getattr (O : PyOps V E) (b : Bubble V E) (attr : String) : Bubble V E :=
  match b.error with
  | some err =>
      let p := b.record "getattr" (.attrName attr) O.pyNone (some err)
      ⟨O.pyNone, b.default, some err, p.1, p.2⟩
  | none =>
      match O.getattrN b.value attr with
      | .ok result =>
          let p := b.record "getattr" (.attrName attr) result none
          ⟨result, b.default, none, p.1, p.2⟩
      | .error exc =>
          let p := b.record "getattr" (.attrName attr) O.pyNone (some exc)
          ⟨O.pyNone, b.default, some exc, p.1, p.2⟩

/-- `Bubble.__getitem__(key)`. -/
def Bubble.getitem (O : PyOps V E) (b : Bubble V E) (key : V) : Bubble V E :=
  match b.error with
  | some err =>
      let p := b.record "getitem" (.key key) O.pyNone (some err)
      ⟨O.pyNone, b.default, some err, p.1, p.2⟩
  | none =>
      match O.getitemN b.value key with
      | .ok result =>
          let p := b.record "getitem" (.key key) result none
          ⟨result, b.default, none, p.1, p.2⟩
      | .error exc =>
          let p := b.record "getitem" (.key key) O.pyNone (some exc)
          ⟨O.pyNone, b.default, some exc, p.1, p.2⟩

/-- `Bubble.__call__(*args, **kwargs)`. -/
def Bubble.call (O : PyOps V E) (b : Bubble V E)
    (args : List V) (kwargs : List (String × V)) : Bubble V E :=
  match b.error with
  | some err =>
      let p := b.record "call" (.callArgs args kwargs) O.pyNone (some err)
      ⟨O.pyNone, b.default, some err, p.1, p.2⟩
  | none =>
      match O.callN b.value args kwargs with
      | .ok result =>
          let p := b.record "call" (.callArgs args kwargs) result none
          ⟨result, b.default, none, p.1, p.2⟩
      | .error exc =>
          let p := b.record "call" (.callArgs args kwargs) O.pyNone (some exc)
          ⟨O.pyNone, b.default, some exc, p.1, p.2⟩

/-- `Bubble.kpop()`: the underlying value if no error occurred, else the default. -/
def Bubble.kpop (b : Bubble V E) : V :=
  if b.error.isNone then b.value else b.default

/-- The module-level function `kpop(bubble)`. -/
def kpop (b : Bubble V E) : V :=
  b.kpop

/-- `Bubble.__repr__`: renders the error when one is present, the value otherwise. -/
def Bubble.reprStr (O : PyOps V E) (b : Bubble V E) : String :=
  match b.error with
  | some e => "<Bubble Error: " ++ O.eStr e ++ ">"
  | none => "<Bubble: " ++ O.vRepr b.value ++ ">"

/-- The module-level entry point `k(value, default)` with the default given
explicitly. -/
def k (value : V) (default : V) : Bubble V E :=
  Bubble.init value default

/-- Calling `k(value)` with the `default` parameter omitted: the source's
signature `def k(value, default=None)` fills in Python `None`. -/
def kOmitDefault (O : PyOps V E) (value : V) : Bubble V E :=
  k value O.pyNone

/-- One chain step: any of the three operation kinds with its datum. -/
inductive Step (V : Type) where
  | getattr (attr : String)
  | getitem (key : V)
  | call (args : List V) (kwargs : List (String × V))
deriving DecidableEq

/-- Perform one step on a wrapper. -/
def Bubble.applyStep (O : PyOps V E) (b : Bubble V E) : Step V → Bubble V E
  | .getattr a => b.getattr O a
  | .getitem key => b.getitem O key
  | .call args kwargs => b.call O args kwargs

/-- Perform a finite sequence of steps on a wrapper. -/
def Bubble.applySteps (O : PyOps V E) (b : Bubble V E) : List (Step V) → Bubble V E
  | [] => b
  | s :: rest => (b.applyStep O s).applySteps O rest

/-- The underlying native operation a step attempts against a raw value. -/
def stepNative (O : PyOps V E) (v : V) : Step V → Except E V
  | .getattr a => O.getattrN v a
  | .getitem key => O.getitemN v key
  | .call args kwargs => O.callN v args kwargs

/-- Presence of the `result` slot of a record: in the source the namedtuple
slot always exists and holds Python `None` exactly when no result was stored,
so presence can only mean "not `None`". -/
def resultPresent (O : PyOps V E) (r : Operation V E) : Prop :=
  r.result ≠ O.pyNone

/-- Presence of the `exception` slot of a record. -/
def failurePresent (r : Operation V E) : Prop :=
  r.exception.isSome

/-!
## A concrete Python domain

A concrete instantiation of `PyOps`, mirroring the `Dummy` object of the
repository's test suite: attribute `attr` holding `'value'`, a method
`multiply(x) = x * 2`, a raising method `error_func` (named `errorFunc` in the
spec's Scenario D), item lookup backed by `{'a': 'A'}`, and additionally an
attribute `noneAttr` whose value is the object `None` (any Python object may
hold `None` in an attribute). -/

/-- Concrete Python values: `None`, strings, integers, the `Dummy` test
object, and its bound methods. -/
inductive DVal where
  | vnone
  | vstr (s : String)
  | vint (n : Int)
  | dummy
  | method (name : String)
deriving DecidableEq

/-- Concrete Python exceptions raised by the concrete domain. -/
inductive DErr where
  | attributeError (name : String)
  | keyError
  | runtimeError (msg : String)
  | typeError
deriving DecidableEq

/-- `getattr` on the concrete domain: the `Dummy` object exposes `attr`,
`noneAttr`, `multiply` and `errorFunc`; everything else raises
`AttributeError`. -/
def dGetattr : DVal → String → Except DErr DVal
  | .dummy, "attr" => .ok (.vstr "value")
  | .dummy, "noneAttr" => .ok .vnone
  | .dummy, "multiply" => .ok (.method "multiply")
  | .dummy, "errorFunc" => .ok (.method "errorFunc")
  | _, a => .error (.attributeError a)

/-- Item lookup on the concrete domain: `Dummy.__getitem__` reads
`{'a': 'A'}`; a missing key raises `KeyError`. -/
def dGetitem : DVal → DVal → Except DErr DVal
  | .dummy, .vstr "a" => .ok (.vstr "A")
  | _, _ => .error .keyError

/-- Invocation on the concrete domain: `multiply(x)` doubles, `errorFunc()`
raises `RuntimeError('boom')`, anything else raises `TypeError`. -/
def dCall : DVal → List DVal → List (String × DVal) → Except DErr DVal
  | .method "multiply", [.vint x], [] => .ok (.vint (x * 2))
  | .method "errorFunc", [], [] => .error (.runtimeError "boom")
  | _, _, _ => .error .typeError

/-- `repr` of a concrete value. -/
def dVRepr : DVal → String
  | .vnone => "None"
  | .vstr s => "'" ++ s ++ "'"
  | .vint n => toString n
  | .dummy => "<Dummy>"
  | .method name => "<method " ++ name ++ ">"

/-- `str` of a concrete exception. -/
def dEStr : DErr → String
  | .attributeError a => "no attribute " ++ a
  | .keyError => "KeyError"
  | .runtimeError m => m
  | .typeError => "not callable"

/-- The concrete `PyOps` instance. -/
def dOps : PyOps DVal DErr :=
  ⟨.vnone, dGetattr, dGetitem, dCall, dVRepr, dEStr⟩

/-- Scenario D of the spec: wrap `Dummy` with default `"DEF"`, access
`errorFunc`, invoke it (raises), then access `attr`. -/
def scenarioD : Bubble DVal DErr :=
  (((k DVal.dummy (DVal.vstr "DEF")).getattr dOps "errorFunc").call dOps [] []).getattr dOps "attr"

/-- A healthy wrapper over the `Dummy` object with default `"DEF"`. -/
def bHealthy : Bubble DVal DErr :=
  k DVal.dummy (DVal.vstr "DEF")

/-- A failed wrapper: accessing the missing attribute `missing` on `Dummy`
raises `AttributeError`. -/
def bFailed : Bubble DVal DErr :=
  bHealthy.getattr dOps "missing"

/-- The record produced by successfully reading the attribute `noneAttr`
whose value is the object `None`: its `result` slot holds `None` and its
`exception` slot holds `None`. -/
def noneAttrRecord : Operation DVal DErr :=
  ⟨"getattr", .attrName "noneAttr", DVal.vnone, none⟩

/-- The record of the failing invocation in Scenario D. -/
def scenarioDCallRecord : Operation DVal DErr :=
  ⟨"call", .callArgs [] [], DVal.vnone, some (.runtimeError "boom")⟩

/-- The history invariant maintained by every wrapper reachable from the
entry API: the error history is an initial segment of the history; the two
agree while no error has occurred; and once an error is present, the error
history ends at the record that captured it. -/
def histInv (b : Bubble V E) : Prop :=
  (∃ t, b.errorHistory ++ t = b.history) ∧
  (b.error = none → b.errorHistory = b.history) ∧
  (∀ f, b.error = some f →
    ∃ r : Operation V E, b.errorHistory.getLast? = some r ∧ r.exception = some f)

/-!
## Helper lemmas

The three dichotomy lemmas below compute `applyStep` in each of the three
regimes of the shared algorithm: parent already failed, native operation
succeeds, native operation raises. -/

theorem applyStep_of_error (O : PyOps V E) (b : Bubble V E) (s : Step V) (f : E)
    (hfail : b.error = some f) :
    ∃ r : Operation V E, r.result = O.pyNone ∧ r.exception = some f ∧
      b.applyStep O s =
        ⟨O.pyNone, b.default, some f, b.history ++ [r], b.errorHistory⟩ := by
  cases s with
  | getattr a =>
      refine ⟨⟨"getattr", .attrName a, O.pyNone, some f⟩, rfl, rfl, ?_⟩
      simp [Bubble.applyStep, Bubble.getattr, Bubble.record, hfail]
  | getitem key =>
      refine ⟨⟨"getitem", .key key, O.pyNone, some f⟩, rfl, rfl, ?_⟩
      simp [Bubble.applyStep, Bubble.getitem, Bubble.record, hfail]
  | call args kwargs =>
      refine ⟨⟨"call", .callArgs args kwargs, O.pyNone, some f⟩, rfl, rfl, ?_⟩
      simp [Bubble.applyStep, Bubble.call, Bubble.record, hfail]

theorem applyStep_ok (O : PyOps V E) (b : Bubble V E) (s : Step V) (res : V)
    (hok : b.error = none) (hnat : stepNative O b.value s = .ok res) :
    ∃ r : Operation V E, r.result = res ∧ r.exception = none ∧
      b.applyStep O s =
        ⟨res, b.default, none, b.history ++ [r], b.errorHistory ++ [r]⟩ := by
  cases s with
  | getattr a =>
      simp only [stepNative] at hnat
      refine ⟨⟨"getattr", .attrName a, res, none⟩, rfl, rfl, ?_⟩
      simp [Bubble.applyStep, Bubble.getattr, Bubble.record, hok, hnat]
  | getitem key =>
      simp only [stepNative] at hnat
      refine ⟨⟨"getitem", .key key, res, none⟩, rfl, rfl, ?_⟩
      simp [Bubble.applyStep, Bubble.getitem, Bubble.record, hok, hnat]
  | call args kwargs =>
      simp only [stepNative] at hnat
      refine ⟨⟨"call", .callArgs args kwargs, res, none⟩, rfl, rfl, ?_⟩
      simp [Bubble.applyStep, Bubble.call, Bubble.record, hok, hnat]

theorem applyStep_err (O : PyOps V E) (b : Bubble V E) (s : Step V) (exc : E)
    (hok : b.error = none) (hnat : stepNative O b.value s = .error exc) :
    ∃ r : Operation V E, r.result = O.pyNone ∧ r.exception = some exc ∧
      b.applyStep O s =
        ⟨O.pyNone, b.default, some exc, b.history ++ [r], b.errorHistory ++ [r]⟩ := by
  cases s with
  | getattr a =>
      simp only [stepNative] at hnat
      refine ⟨⟨"getattr", .attrName a, O.pyNone, some exc⟩, rfl, rfl, ?_⟩
      simp [Bubble.applyStep, Bubble.getattr, Bubble.record, hok, hnat]
  | getitem key =>
      simp only [stepNative] at hnat
      refine ⟨⟨"getitem", .key key, O.pyNone, some exc⟩, rfl, rfl, ?_⟩
      simp [Bubble.applyStep, Bubble.getitem, Bubble.record, hok, hnat]
  | call args kwargs =>
      simp only [stepNative] at hnat
      refine ⟨⟨"call", .callArgs args kwargs, O.pyNone, some exc⟩, rfl, rfl, ?_⟩
      simp [Bubble.applyStep, Bubble.call, Bubble.record, hok, hnat]

theorem applyStep_error_of_error (O : PyOps V E) (b : Bubble V E) (s : Step V)
    (f : E) (hfail : b.error = some f) : (b.applyStep O s).error = some f := by
  obtain ⟨r, -, -, heq⟩ := applyStep_of_error O b s f hfail
  rw [heq]

theorem applyStep_default (O : PyOps V E) (b : Bubble V E) (s : Step V) :
    (b.applyStep O s).default = b.default := by
  rcases hb : b.error with - | f
  · rcases hn : stepNative O b.value s with exc | res
    · obtain ⟨r, -, -, heq⟩ := applyStep_err O b s exc hb hn
      rw [heq]
    · obtain ⟨r, -, -, heq⟩ := applyStep_ok O b s res hb hn
      rw [heq]
  · obtain ⟨r, -, -, heq⟩ := applyStep_of_error O b s f hb
    rw [heq]

theorem applySteps_default (O : PyOps V E) (b : Bubble V E) (steps : List (Step V)) :
    (b.applySteps O steps).default = b.default := by
  induction steps generalizing b with
  | nil => rfl
  | cons s rest ih =>
      rw [Bubble.applySteps, ih, applyStep_default]

theorem kpop_of_error (b : Bubble V E) (h : b.error.isSome) :
    kpop b = b.default := by
  unfold kpop Bubble.kpop
  rcases hb : b.error with - | f
  · rw [hb] at h
    cases h
  · simp [hb]

/-- Each step preserves the history invariant. -/
theorem histInv_applyStep (O : PyOps V E) (b : Bubble V E) (s : Step V)
    (h : histInv b) : histInv (b.applyStep O s) := by
  obtain ⟨⟨t, ht⟩, heq, hlast⟩ := h
  rcases hb : b.error with - | f
  · rcases hn : stepNative O b.value s with exc | res
    · obtain ⟨r, -, hre, hstep⟩ := applyStep_err O b s exc hb hn
      rw [hstep]
      refine ⟨⟨[], by simp [heq hb]⟩, by simp, ?_⟩
      intro f' hf'
      obtain rfl : exc = f' := by simpa using hf'
      exact ⟨r, by simp, hre⟩
    · obtain ⟨r, -, -, hstep⟩ := applyStep_ok O b s res hb hn
      rw [hstep]
      exact ⟨⟨[], by simp [heq hb]⟩, fun _ => by simp [heq hb], fun f' hf' => by cases hf'⟩
  · obtain ⟨r, -, -, hstep⟩ := applyStep_of_error O b s f hb
    rw [hstep]
    refine ⟨⟨t ++ [r], ?_⟩, ?_, ?_⟩
    · show b.errorHistory ++ (t ++ [r]) = b.history ++ [r]
      rw [← List.append_assoc, ht]
    · intro hc
      simp at hc
    · intro f' hf'
      obtain rfl : f = f' := by simpa using hf'
      exact hlast f hb

/-- A sequence of steps preserves the history invariant. -/
theorem histInv_applySteps (O : PyOps V E) (b : Bubble V E) (steps : List (Step V))
    (h : histInv b) : histInv (b.applySteps O steps) := by
  induction steps generalizing b with
  | nil => exact h
  | cons s rest ih => exact ih _ (histInv_applyStep O b s h)

/-- The initial wrapper satisfies the history invariant. -/
theorem histInv_k (v d : V) : histInv (k v d : Bubble V E) :=
  ⟨⟨[], rfl⟩, fun _ => rfl, fun f hf => by cases hf⟩

/-- The per-record consistency maintained by every wrapper reachable from the
entry API: any history record whose `exception` slot is present has the
object `None` in its `result` slot. -/
def recordsConsistent (O : PyOps V E) (b : Bubble V E) : Prop :=
  ∀ r ∈ b.history, r.exception.isSome → r.result = O.pyNone

theorem recordsConsistent_applyStep (O : PyOps V E) (b : Bubble V E) (s : Step V)
    (h : recordsConsistent O b) : recordsConsistent O (b.applyStep O s) := by
  rcases hb : b.error with - | f
  · rcases hn : stepNative O b.value s with exc | res
    · obtain ⟨r, hrr, hre, hstep⟩ := applyStep_err O b s exc hb hn
      rw [hstep]
      intro r' hr' hex
      rcases List.mem_append.mp hr' with hmem | hlastm
      · exact h r' hmem hex
      · obtain rfl : r' = r := by simpa using hlastm
        exact hrr
    · obtain ⟨r, hrr, hre, hstep⟩ := applyStep_ok O b s res hb hn
      rw [hstep]
      intro r' hr' hex
      rcases List.mem_append.mp hr' with hmem | hlastm
      · exact h r' hmem hex
      · obtain rfl : r' = r := by simpa using hlastm
        rw [hre] at hex
        cases hex
  · obtain ⟨r, hrr, hre, hstep⟩ := applyStep_of_error O b s f hb
    rw [hstep]
    intro r' hr' hex
    rcases List.mem_append.mp hr' with hmem | hlastm
    · exact h r' hmem hex
    · obtain rfl : r' = r := by simpa using hlastm
      exact hrr

theorem recordsConsistent_applySteps (O : PyOps V E) (b : Bubble V E)
    (steps : List (Step V)) (h : recordsConsistent O b) :
    recordsConsistent O (b.applySteps O steps) := by
  induction steps generalizing b with
  | nil => exact h
  | cons s rest ih => exact ih _ (recordsConsistent_applyStep O b s h)

/-!
## Claim theorems
-/

/-- C1: For every wrapper with no recorded failure, performing an operation
(attribute access, indexed access, or invocation) whose underlying native
operation succeeds returns a new wrapper whose current value is the produced
value, whose default equals the parent's, carrying no failure, and whose
history and error history each extend the parent's by one identical new
record carrying the result and no failure. -/
theorem success_op_appends_identical_record (O : PyOps V E) (b : Bubble V E)
    (s : Step V) (res : V) (hok : b.error = none)
    (hnat : stepNative O b.value s = .ok res) :
    ∃ r : Operation V E,
      r.result = res ∧ r.exception = none ∧
      (b.applyStep O s).value = res ∧
      (b.applyStep O s).default = b.default ∧
      (b.applyStep O s).error = none ∧
      (b.applyStep O s).history = b.history ++ [r] ∧
      (b.applyStep O s).errorHistory = b.errorHistory ++ [r] := by
  obtain ⟨r, h1, h2, hstep⟩ := applyStep_ok O b s res hok hnat
  exact ⟨r, h1, h2, by rw [hstep], by rw [hstep], by rw [hstep], by rw [hstep],
    by rw [hstep]⟩

/-- Witness for C1: the healthy `Dummy` wrapper, attribute read of `attr`,
which succeeds producing `'value'`. -/
theorem success_op_appends_identical_record_witness :
    bHealthy.error = none ∧
    stepNative dOps bHealthy.value (.getattr "attr") = .ok (DVal.vstr "value") ∧
    ∃ r : Operation DVal DErr,
      r.result = DVal.vstr "value" ∧ r.exception = none ∧
      (bHealthy.applyStep dOps (.getattr "attr")).value = DVal.vstr "value" ∧
      (bHealthy.applyStep dOps (.getattr "attr")).default = bHealthy.default ∧
      (bHealthy.applyStep dOps (.getattr "attr")).error = none ∧
      (bHealthy.applyStep dOps (.getattr "attr")).history = bHealthy.history ++ [r] ∧
      (bHealthy.applyStep dOps (.getattr "attr")).errorHistory
        = bHealthy.errorHistory ++ [r] :=
  ⟨rfl, rfl,
   success_op_appends_identical_record dOps bHealthy (.getattr "attr")
     (DVal.vstr "value") rfl rfl⟩

/-- C2: For every wrapper already carrying a failure, any further operation
returns a new wrapper with no current value (the object `None`), the same
default, the same original failure, a history extended by one record whose
failure field is the inherited failure and whose result is absent, and an
error history identical to the parent's. -/
theorem failed_op_inert_record (O : PyOps V E) (b : Bubble V E) (s : Step V)
    (f : E) (hfail : b.error = some f) :
    ∃ r : Operation V E,
      r.result = O.pyNone ∧ r.exception = some f ∧
      (b.applyStep O s).value = O.pyNone ∧
      (b.applyStep O s).default = b.default ∧
      (b.applyStep O s).error = some f ∧
      (b.applyStep O s).history = b.history ++ [r] ∧
      (b.applyStep O s).errorHistory = b.errorHistory := by
  obtain ⟨r, h1, h2, hstep⟩ := applyStep_of_error O b s f hfail
  exact ⟨r, h1, h2, by rw [hstep], by rw [hstep], by rw [hstep], by rw [hstep],
    by rw [hstep]⟩

/-- Witness for C2: the failed wrapper (missing attribute), followed by an
attribute read of `attr`. -/
theorem failed_op_inert_record_witness :
    bFailed.error = some (DErr.attributeError "missing") ∧
    ∃ r : Operation DVal DErr,
      r.result = DVal.vnone ∧ r.exception = some (DErr.attributeError "missing") ∧
      (bFailed.applyStep dOps (.getattr "attr")).value = DVal.vnone ∧
      (bFailed.applyStep dOps (.getattr "attr")).default = bFailed.default ∧
      (bFailed.applyStep dOps (.getattr "attr")).error
        = some (DErr.attributeError "missing") ∧
      (bFailed.applyStep dOps (.getattr "attr")).history = bFailed.history ++ [r] ∧
      (bFailed.applyStep dOps (.getattr "attr")).errorHistory = bFailed.errorHistory :=
  ⟨by decide,
   failed_op_inert_record dOps bFailed (.getattr "attr")
     (DErr.attributeError "missing") (by decide)⟩

/-- C3: For every wrapper with no recorded failure, if the underlying native
operation raises, the condition is absorbed (the embedding of every
operation is a total function returning a wrapper, never re-raising): the
operation returns a new wrapper with no current value, the same default and
the newly captured failure, and the same failing record (no result, failure
set to the captured failure) is appended to both histories. -/
theorem failing_op_absorbs_failure (O : PyOps V E) (b : Bubble V E)
    (s : Step V) (exc : E) (hok : b.error = none)
    (hnat : stepNative O b.value s = .error exc) :
    ∃ r : Operation V E,
      r.result = O.pyNone ∧ r.exception = some exc ∧
      (b.applyStep O s).value = O.pyNone ∧
      (b.applyStep O s).default = b.default ∧
      (b.applyStep O s).error = some exc ∧
      (b.applyStep O s).history = b.history ++ [r] ∧
      (b.applyStep O s).errorHistory = b.errorHistory ++ [r] := by
  obtain ⟨r, h1, h2, hstep⟩ := applyStep_err O b s exc hok hnat
  exact ⟨r, h1, h2, by rw [hstep], by rw [hstep], by rw [hstep], by rw [hstep],
    by rw [hstep]⟩

/-- Witness for C3: the healthy `Dummy` wrapper, item lookup of the missing
key `'b'`, which raises `KeyError`. -/
theorem failing_op_absorbs_failure_witness :
    bHealthy.error = none ∧
    stepNative dOps bHealthy.value (.getitem (DVal.vstr "b")) = .error DErr.keyError ∧
    ∃ r : Operation DVal DErr,
      r.result = DVal.vnone ∧ r.exception = some DErr.keyError ∧
      (bHealthy.applyStep dOps (.getitem (DVal.vstr "b"))).value = DVal.vnone ∧
      (bHealthy.applyStep dOps (.getitem (DVal.vstr "b"))).default = bHealthy.default ∧
      (bHealthy.applyStep dOps (.getitem (DVal.vstr "b"))).error = some DErr.keyError ∧
      (bHealthy.applyStep dOps (.getitem (DVal.vstr "b"))).history
        = bHealthy.history ++ [r] ∧
      (bHealthy.applyStep dOps (.getitem (DVal.vstr "b"))).errorHistory
        = bHealthy.errorHistory ++ [r] :=
  ⟨rfl, rfl,
   failing_op_absorbs_failure dOps bHealthy (.getitem (DVal.vstr "b"))
     DErr.keyError rfl rfl⟩

/-- C4: Extraction returns the current value when no failure is recorded and
the default otherwise; it is a pure function of the wrapper (the embedding
of `kpop` takes the wrapper and returns a value, touching no state), so
calling it any number of times on the same wrapper returns the same value. -/
theorem kpop_extraction_spec (b : Bubble V E) :
    (b.error = none → kpop b = b.value) ∧
    (b.error.isSome → kpop b = b.default) ∧
    kpop b = kpop b := by
  refine ⟨?_, ?_, rfl⟩
  · intro h
    unfold kpop Bubble.kpop
    simp [h]
  · intro h
    exact kpop_of_error b h

/-- Witness for C4: extraction on the healthy wrapper yields the wrapped
`Dummy`, on the failed wrapper the default `'DEF'`. -/
theorem kpop_extraction_spec_witness :
    kpop bHealthy = DVal.dummy ∧ kpop bFailed = DVal.vstr "DEF" :=
  ⟨(kpop_extraction_spec bHealthy).1 rfl,
   (kpop_extraction_spec bFailed).2.1 (by decide)⟩

/-- C5: Once a wrapper carries a failure, no finite sequence of further
operations (of any kinds) ever replaces it: the resulting wrapper still
carries exactly the original failure. -/
theorem failure_never_replaced (O : PyOps V E) (b : Bubble V E) (f : E)
    (hfail : b.error = some f) (steps : List (Step V)) :
    (b.applySteps O steps).error = some f := by
  induction steps generalizing b with
  | nil => exact hfail
  | cons s rest ih => exact ih _ (applyStep_error_of_error O b s f hfail)

/-- Witness for C5: the failed wrapper keeps `AttributeError('missing')`
through three further operations of all three kinds. -/
theorem failure_never_replaced_witness :
    bFailed.error = some (DErr.attributeError "missing") ∧
    (bFailed.applySteps dOps
        [.getattr "attr", .getitem (DVal.vstr "a"), .call [] []]).error
      = some (DErr.attributeError "missing") :=
  ⟨by decide,
   failure_never_replaced dOps bFailed (DErr.attributeError "missing") (by decide)
     [.getattr "attr", .getitem (DVal.vstr "a"), .call [] []]⟩

/-- C6 (counterexample): successfully reading an attribute whose value is the
object `None` produces a record in which the `result` slot holds `None` and
the `exception` slot holds `None`, so neither field is present — refuting
"exactly one of `result`/`failure` is present for any record". -/
theorem record_exactly_one_refuted :
    (bHealthy.getattr dOps "noneAttr").history = [noneAttrRecord] ∧
    ¬ (resultPresent dOps noneAttrRecord ∨ failurePresent noneAttrRecord) := by
  constructor
  · decide
  · intro h
    rcases h with h | h
    · exact h rfl
    · cases h

/-- C6 (amended): at most one of a record's `result`/`failure` fields is
present, for every record in the history of any wrapper reachable from the
entry API; a successful step that produces the object `None` leaves neither
field present. -/
theorem record_at_most_one_present (O : PyOps V E) (v d : V)
    (steps : List (Step V)) (r : Operation V E)
    (hmem : r ∈ ((k v d : Bubble V E).applySteps O steps).history) :
    ¬ (resultPresent O r ∧ failurePresent r) := by
  rintro ⟨hres, hfp⟩
  have hbase : recordsConsistent O (k v d : Bubble V E) := by
    intro r' hr' hex
    cases hr'
  have hcons := recordsConsistent_applySteps O (k v d) steps hbase
  exact hres (hcons r hmem hfp)

/-- Witness for C6 (amended): the failing call record of Scenario D is in the
history of the wrapper reached by `getattr errorFunc` then `call`, and does
not have both fields present. -/
theorem record_at_most_one_present_witness :
    scenarioDCallRecord ∈
      ((k DVal.dummy (DVal.vstr "DEF") : Bubble DVal DErr).applySteps dOps
        [.getattr "errorFunc", .call [] []]).history ∧
    ¬ (resultPresent dOps scenarioDCallRecord ∧ failurePresent scenarioDCallRecord) :=
  ⟨by decide,
   record_at_most_one_present dOps DVal.dummy (DVal.vstr "DEF")
     [.getattr "errorFunc", .call [] []] scenarioDCallRecord (by decide)⟩

/-- C7: Scenario D — wrapping the `Dummy` object (raising method `errorFunc`,
attribute `attr`) with default `'DEF'`, accessing `errorFunc`, invoking it
(which raises `RuntimeError('boom')`), then accessing `attr`: extraction
returns `'DEF'`, the history has length 3, and the error history has length
2, ending at the call record that failed. -/
theorem scenarioD_spec :
    kpop scenarioD = DVal.vstr "DEF" ∧
    scenarioD.history.length = 3 ∧
    scenarioD.errorHistory.length = 2 ∧
    scenarioD.errorHistory.getLast? = some scenarioDCallRecord := by
  refine ⟨by decide, by decide, by decide, by decide⟩

/-- C8: Every wrapper reachable from the entry API satisfies the history
invariant: the error history is an initial segment of the history, the two
are equal while no failure is recorded, and once a failure is present the
error history ends at the record that captured it. -/
theorem reachable_histInv (O : PyOps V E) (v d : V) (steps : List (Step V)) :
    histInv ((k v d : Bubble V E).applySteps O steps) :=
  histInv_applySteps O (k v d) steps (histInv_k v d)

/-- C9: The textual representation renders the failure when one is present
(and is then insensitive to the current value), and renders the current
value when no failure is present — never both in one representation. -/
theorem repr_renders_error_or_value (O : PyOps V E) (b : Bubble V E) :
    (∀ e, b.error = some e →
      b.reprStr O = "<Bubble Error: " ++ O.eStr e ++ ">" ∧
      ∀ v : V,
        Bubble.reprStr O ⟨v, b.default, b.error, b.history, b.errorHistory⟩
          = b.reprStr O) ∧
    (b.error = none → b.reprStr O = "<Bubble: " ++ O.vRepr b.value ++ ">") := by
  constructor
  · intro e he
    constructor
    · simp [Bubble.reprStr, he]
    · intro v
      simp [Bubble.reprStr, he]
  · intro he
    simp [Bubble.reprStr, he]

/-- Witness for C9: the failed wrapper renders its `AttributeError`, the
healthy wrapper renders its value. -/
theorem repr_renders_error_or_value_witness :
    bFailed.reprStr dOps
      = "<Bubble Error: " ++ dOps.eStr (DErr.attributeError "missing") ++ ">" ∧
    bHealthy.reprStr dOps = "<Bubble: " ++ dOps.vRepr DVal.dummy ++ ">" :=
  ⟨((repr_renders_error_or_value dOps bFailed).1 (DErr.attributeError "missing")
      (by decide)).1,
   (repr_renders_error_or_value dOps bHealthy).2 rfl⟩

/-- C10: The entry API called without an explicit default creates a wrapper
whose default is the object `None`; consequently any chain started this way
that fails at some step extracts to `None`, which is the same value a healthy
chain whose current value is `None` extracts to. -/
theorem omitted_default_is_none (O : PyOps V E) (v : V) :
    (kOmitDefault O v).default = O.pyNone ∧
    (∀ steps : List (Step V),
      ((kOmitDefault O v).applySteps O steps).error.isSome →
        kpop ((kOmitDefault O v).applySteps O steps) = O.pyNone) ∧
    (∀ w : Bubble V E, w.error = none → w.value = O.pyNone →
      kpop w = O.pyNone) := by
  refine ⟨rfl, ?_, ?_⟩
  · intro steps hs
    rw [kpop_of_error _ hs, applySteps_default]
    rfl
  · intro w hw hv
    unfold kpop Bubble.kpop
    simp [hw, hv]

/-- Witness for C10: a chain from `k(Dummy)` (no default) failing on a
missing attribute extracts to `None`, exactly like the healthy wrapper
`k(None)` does. -/
theorem omitted_default_is_none_witness :
    (kOmitDefault dOps DVal.dummy).default = DVal.vnone ∧
    ((kOmitDefault dOps DVal.dummy).applySteps dOps [.getattr "missing"]).error.isSome ∧
    kpop ((kOmitDefault dOps DVal.dummy).applySteps dOps [.getattr "missing"])
      = DVal.vnone ∧
    (k DVal.vnone DVal.vnone : Bubble DVal DErr).error = none ∧
    (k DVal.vnone DVal.vnone : Bubble DVal DErr).value = DVal.vnone ∧
    kpop (k DVal.vnone DVal.vnone : Bubble DVal DErr) = DVal.vnone :=
  ⟨rfl, by decide,
   (omitted_default_is_none dOps DVal.dummy).2.1 [.getattr "missing"] (by decide),
   rfl, rfl,
   (omitted_default_is_none dOps DVal.dummy).2.2
     (k DVal.vnone DVal.vnone : Bubble DVal DErr) rfl rfl⟩
